import Mathlib

/-!
Verification of the one-shot channel family in src/ch5/channel.rs.

The file embeds the four channel variants of the repository:
module unsafe_channel (runtime-checked), module safe_channel
(ownership-typed, Arc-backed), module safe_channel_without_arc
(ownership-typed, borrowed backing with split), and module ch5_6
(directed wake via thread parking).

Modelling conventions:
the MaybeUninit slot is an Option, none meaning uninitialized;
atomic booleans are plain booleans with explicit primitive operations;
a Rust panic or an undefined read is an Except error with a named
marker; send and receive that take self by value are modelled with
explicit handle-liveness booleans, so that a call the Rust compiler
rejects at compile time shows up as a useAfterMove error.
-/

/-- Abnormal outcomes of a channel operation: the two panics of the
source, a read of an uninitialized slot (undefined behavior in Rust),
and a call through a handle already consumed by value (rejected by the
Rust compiler, recorded here as an explicit error). -/
inductive ChanError where
  | doubleSend
  | noMessage
  | uninitRead
  | useAfterMove
deriving DecidableEq, Repr

namespace Atomics

/-- AtomicBool load: returns the current value, and the cell keeps it. -/
def load (b : Bool) : Bool × Bool := (b, b)

/-- AtomicBool swap: returns the previous value, the cell now holds the
new one. -/
def swap (b n : Bool) : Bool × Bool := (b, n)

/-- AtomicBool store: the cell now holds the new value. -/
def store (_old : Bool) (n : Bool) : Bool := n

end Atomics

namespace unsafe_channel

/-- Embeds the runtime-checked Channel of module unsafe_channel:
a MaybeUninit slot, an in_use claim flag and a ready flag. -/
structure Channel (T : Type) where
  message : Option T
  in_use : Bool
  ready : Bool

variable {T : Type}

/-- Channel::new: uninitialized slot, both flags false. -/
def Channel.new : Channel T :=
  { message := none, in_use := false, ready := false }

/-- Channel::send: relaxed swap of in_use claims the channel; if the
claim fails the call panics; otherwise the slot is written and then
ready is stored true (Release). -/
def Channel.send (c : Channel T) (message : T) : Except ChanError (Channel T) :=
  let (old, u) := Atomics.swap c.in_use true
  if old then .error .doubleSend
  else
    let slot := some message
    let r := Atomics.store c.ready true
    .ok { message := slot, in_use := u, ready := r }

/-- Channel::is_ready: relaxed load of ready through a shared
reference; the channel state comes back unchanged. -/
def Channel.is_ready (c : Channel T) : Bool × Channel T :=
  let (v, r) := Atomics.load c.ready
  (v, { c with ready := r })

/-- Channel::receive: acquire swap of ready to false; if it was false
the call panics; otherwise the slot is read out (assume_init_read). -/
def Channel.receive (c : Channel T) : Except ChanError (T × Channel T) :=
  let (old, r) := Atomics.swap c.ready false
  if old then
    match c.message with
    | some m => .ok (m, { c with ready := r })
    | none => .error .uninitRead
  else .error .noMessage

/-- Drop for Channel: assume_init_drop runs iff ready is true at
teardown; this counts the payload destructor runs. -/
def Channel.dropRuns (c : Channel T) : Nat :=
  if c.ready then 1 else 0

/-- Drop for Channel: the payload the teardown destroys, when any. -/
def Channel.dropDestroys (c : Channel T) : Option T :=
  if c.ready then c.message else none

end unsafe_channel

namespace safe_channel

/-- Embeds the Channel of module safe_channel: a MaybeUninit slot and a
ready flag, shared through an Arc by the two handles. -/
structure Channel (T : Type) where
  message : Option T
  ready : Bool

variable {T : Type}

/-- The state the channel() constructor allocates. -/
def Channel.init : Channel T :=
  { message := none, ready := false }

/-- Sender::send (takes self by value): writes the slot, then stores
ready true (Release); no claim check is needed. -/
def Sender.send (c : Channel T) (message : T) : Channel T :=
  let slot := some message
  let r := Atomics.store c.ready true
  { message := slot, ready := r }

/-- Receiver::is_ready: relaxed load of ready through a shared
reference; the channel state comes back unchanged. -/
def Receiver.is_ready (c : Channel T) : Bool × Channel T :=
  let (v, r) := Atomics.load c.ready
  (v, { c with ready := r })

/-- Receiver::receive (takes self by value): acquire swap of ready; if
it was false the call panics; otherwise the slot is read out. -/
def Receiver.receive (c : Channel T) : Except ChanError (T × Channel T) :=
  let (old, r) := Atomics.swap c.ready false
  if old then
    match c.message with
    | some m => .ok (m, { c with ready := r })
    | none => .error .uninitRead
  else .error .noMessage

/-- Drop for Channel: assume_init_drop runs iff ready is true at
teardown; this counts the payload destructor runs. -/
def Channel.dropRuns (c : Channel T) : Nat :=
  if c.ready then 1 else 0

/-- Drop for Channel: the payload the teardown destroys, when any. -/
def Channel.dropDestroys (c : Channel T) : Option T :=
  if c.ready then c.message else none

/-- Rust move semantics made explicit: channel() returns one Sender and
one Receiver over the shared state; send and receive take self by
value, so each handle can be used at most once. The liveness booleans
record whether the handle still exists; a call on a consumed handle is
the useAfterMove error, which the Rust compiler rejects statically. -/
structure Pair (T : Type) where
  chan : Channel T
  hasSender : Bool
  hasReceiver : Bool

/-- channel(): fresh shared state, both handles live. -/
def Pair.channel : Pair T :=
  { chan := Channel.init, hasSender := true, hasReceiver := true }

/-- Sender::send at the handle level: consumes the Sender. -/
def Pair.send (p : Pair T) (m : T) : Except ChanError (Pair T) :=
  if p.hasSender then
    .ok { chan := Sender.send p.chan m, hasSender := false, hasReceiver := p.hasReceiver }
  else .error .useAfterMove

/-- Receiver::receive at the handle level: consumes the Receiver. -/
def Pair.receive (p : Pair T) : Except ChanError (T × Pair T) :=
  if p.hasReceiver then
    (Receiver.receive p.chan).map
      (fun q => (q.1, { chan := q.2, hasSender := p.hasSender, hasReceiver := false }))
  else .error .useAfterMove

end safe_channel

namespace safe_channel_without_arc

/-- Embeds the Channel of module safe_channel_without_arc: the same
slot and ready flag, borrowed by the handles from an enclosing scope. -/
structure Channel (T : Type) where
  message : Option T
  ready : Bool

variable {T : Type}

/-- Channel::new: uninitialized slot, ready false. -/
def Channel.new : Channel T :=
  { message := none, ready := false }

/-- Drop for Channel: assume_init_drop runs iff ready is true at
teardown; this counts the payload destructor runs. -/
def Channel.dropRuns (c : Channel T) : Nat :=
  if c.ready then 1 else 0

/-- Drop for Channel: the payload the teardown destroys, when any. -/
def Channel.dropDestroys (c : Channel T) : Option T :=
  if c.ready then c.message else none

/-- Channel::split: the assignment *self = Self::new() drops the
replaced state (first component: the payload that Drop destroys, per
Channel.dropDestroys) and installs a fresh state, which then backs the
new Sender/Receiver pair. -/
def Channel.split (c : Channel T) : Option T × Channel T :=
  (c.dropDestroys, Channel.new)

/-- Sender::send (takes self by value): writes the slot, then stores
ready true (Release). -/
def Sender.send (c : Channel T) (message : T) : Channel T :=
  let slot := some message
  let r := Atomics.store c.ready true
  { message := slot, ready := r }

/-- Receiver::is_ready: relaxed load of ready; state unchanged. -/
def Receiver.is_ready (c : Channel T) : Bool × Channel T :=
  let (v, r) := Atomics.load c.ready
  (v, { c with ready := r })

/-- Receiver::receive (takes self by value): acquire swap of ready; if
it was false the call panics; otherwise the slot is read out. -/
def Receiver.receive (c : Channel T) : Except ChanError (T × Channel T) :=
  let (old, r) := Atomics.swap c.ready false
  if old then
    match c.message with
    | some m => .ok (m, { c with ready := r })
    | none => .error .uninitRead
  else .error .noMessage

end safe_channel_without_arc

namespace ch5_6

/-- Embeds the Channel of module ch5_6: slot and ready flag; the Sender
additionally remembers the receiving thread for the directed wake. -/
structure Channel (T : Type) where
  message : Option T
  ready : Bool

variable {T : Type}

/-- Channel::new: uninitialized slot, ready false. -/
def Channel.new : Channel T :=
  { message := none, ready := false }

/-- Drop for Channel: assume_init_drop runs iff ready is true at
teardown; this counts the payload destructor runs. -/
def Channel.dropRuns (c : Channel T) : Nat :=
  if c.ready then 1 else 0

/-- Drop for Channel: the payload the teardown destroys, when any. -/
def Channel.dropDestroys (c : Channel T) : Option T :=
  if c.ready then c.message else none

/-- Channel::split: the assignment *self = Self::new() drops the
replaced state (first component: the payload that Drop destroys) and
installs a fresh state backing the new handle pair. -/
def Channel.split (c : Channel T) : Option T × Channel T :=
  (c.dropDestroys, Channel.new)

/-- Sender::send (takes self by value): writes the slot, stores ready
true (Release), then unparks the receiving thread; the wakeup itself is
modelled on the receive side through the state seen when park returns. -/
def Sender.send (c : Channel T) (message : T) : Channel T :=
  let slot := some message
  let r := Atomics.store c.ready true
  { message := slot, ready := r }

/-- Receiver::is_ready: relaxed load of ready; state unchanged. -/
def Receiver.is_ready (c : Channel T) : Bool × Channel T :=
  let (v, r) := Atomics.load c.ready
  (v, { c with ready := r })

/-- Receiver::receive (takes self by value), translated from the source
as written: one acquire swap of ready; when it was false the thread
parks once inside an if (not a loop) and, when park returns, reads the
slot with no further check of ready. afterPark is the channel state at
the moment park returns: the sender may have completed its send by then
(slot written, ready stored true), or park may have returned spuriously
with the state unchanged. -/
def Receiver.receive (c : Channel T) (afterPark : Channel T) : Except ChanError (T × Channel T) :=
  let (old, r) := Atomics.swap c.ready false
  if old then
    match c.message with
    | some m => .ok (m, { c with ready := r })
    | none => .error .uninitRead
  else
    match afterPark.message with
    | some m => .ok (m, afterPark)
    | none => .error .uninitRead

/-- Handle pair issued by split, with Rust move semantics explicit:
send and receive take self by value, so each handle is single-use. -/
structure Pair (T : Type) where
  chan : Channel T
  hasSender : Bool
  hasReceiver : Bool

/-- Channel::split at the handle level: the replaced state is dropped
(first component) and a fresh pair over the fresh state is issued. -/
def Channel.splitPair (c : Channel T) : Option T × Pair T :=
  ((c.split).1, { chan := (c.split).2, hasSender := true, hasReceiver := true })

/-- Sender::send at the handle level: consumes the Sender. -/
def Pair.send (p : Pair T) (m : T) : Except ChanError (Pair T) :=
  if p.hasSender then
    .ok { chan := Sender.send p.chan m, hasSender := false, hasReceiver := p.hasReceiver }
  else .error .useAfterMove

/-- Receiver::receive at the handle level: consumes the Receiver. -/
def Pair.receive (p : Pair T) (afterPark : Channel T) : Except ChanError (T × Pair T) :=
  if p.hasReceiver then
    (Receiver.receive p.chan afterPark).map
      (fun q => (q.1, { chan := q.2, hasSender := p.hasSender, hasReceiver := false }))
  else .error .useAfterMove

end ch5_6

namespace handoff

/-- Program counter of the producer thread running the runtime-checked
send: claim in_use, write the slot, store ready, done, or panicked. -/
inductive PPC where
  | claimUse | writeSlot | storeReady | pDone | pPanic
deriving DecidableEq, Repr

/-- Program counter of the consumer thread running receive: swap ready,
read the slot, panicked, or done. -/
inductive CPC where
  | swapReady | readSlot | cPanic | cDone
deriving DecidableEq, Repr

/-- An interleaving configuration: the shared slot and flags, both
thread positions, and the value receive returned once it has. -/
structure Conf (T : Type) where
  slot : Option T
  in_use : Bool
  ready : Bool
  ppc : PPC
  cpc : CPC
  res : Option T

variable {T : Type}

/-- The initial configuration: Channel::new, each thread before its
first atomic access. -/
def init (T : Type) : Conf T :=
  { slot := none, in_use := false, ready := false,
    ppc := .claimUse, cpc := .swapReady, res := none }

/-- One interleaved step of the producer running send v or of the
consumer running receive, each atomic access of the source a separate
step. The release store of ready and the acquire swap of ready act on
one shared state: the happens-before edge the orderings grant is
modelled as the slot write being visible whenever the swap sees true. -/
inductive Step (v : T) : Conf T → Conf T → Prop where
  | claimOk (s r cp q) :
      Step v ⟨s, false, r, .claimUse, cp, q⟩ ⟨s, true, r, .writeSlot, cp, q⟩
  | claimFail (s r cp q) :
      Step v ⟨s, true, r, .claimUse, cp, q⟩ ⟨s, true, r, .pPanic, cp, q⟩
  | writeSlot (s u r cp q) :
      Step v ⟨s, u, r, .writeSlot, cp, q⟩ ⟨some v, u, r, .storeReady, cp, q⟩
  | storeReady (s u r cp q) :
      Step v ⟨s, u, r, .storeReady, cp, q⟩ ⟨s, u, true, .pDone, cp, q⟩
  | swapTrue (s u p q) :
      Step v ⟨s, u, true, p, .swapReady, q⟩ ⟨s, u, false, p, .readSlot, q⟩
  | swapFalse (s u p q) :
      Step v ⟨s, u, false, p, .swapReady, q⟩ ⟨s, u, false, p, .cPanic, q⟩
  | readSlot (s u r p q) :
      Step v ⟨s, u, r, p, .readSlot, q⟩ ⟨s, u, r, p, .cDone, s⟩

/-- Configurations reachable from the initial one by interleaving. -/
def Reachable (v : T) (c : Conf T) : Prop :=
  Relation.ReflTransGen (Step v) (init T) c

/-- The inductive invariant: when ready is true the slot already holds
the sent value; so does it once the producer is at or past its ready
store; and a consumer whose swap observed true reads exactly v. -/
def inv (v : T) (c : Conf T) : Prop :=
  (c.ready = true → c.slot = some v)
  ∧ ((c.ppc = .storeReady ∨ c.ppc = .pDone) → c.slot = some v)
  ∧ (c.cpc = .readSlot → c.slot = some v)
  ∧ (c.cpc = .cDone → c.res = some v)

/-- Every step preserves the invariant. -/
theorem inv_step {v : T} {a b : Conf T} (ha : inv v a) (st : Step v a b) : inv v b := by
  obtain ⟨h1, h2, h3, h4⟩ := ha
  cases st <;> refine ⟨?_, ?_, ?_, ?_⟩ <;> simp_all [inv]

/-- Every reachable configuration satisfies the invariant. -/
theorem inv_reachable {v : T} {c : Conf T} (h : Reachable v c) : inv v c := by
  induction h with
  | refl => refine ⟨?_, ?_, ?_, ?_⟩ <;> simp [init]
  | tail _ st ih => exact inv_step ih st

end handoff

/-- C1: for every payload value v, one send of v followed by one
receive returns exactly v in each channel variant, and the value is
delivered exactly once: a second receive on the same instance panics
with the no-message violation in the runtime-checked path, and in the
ownership-typed variants is a call on an already consumed Receiver. -/
theorem C1_send_then_receive_delivers_exactly_once (T : Type) (v : T) :
    ((unsafe_channel.Channel.new.send v).bind unsafe_channel.Channel.receive
      = .ok (v, { message := some v, in_use := true, ready := false }))
    ∧ (((unsafe_channel.Channel.new.send v).bind unsafe_channel.Channel.receive).bind
        (fun q => q.2.receive) = .error .noMessage)
    ∧ ((safe_channel.Pair.channel.send v).bind safe_channel.Pair.receive
      = .ok (v, { chan := { message := some v, ready := false },
                  hasSender := false, hasReceiver := false }))
    ∧ (((safe_channel.Pair.channel.send v).bind safe_channel.Pair.receive).bind
        (fun q => q.2.receive) = .error .useAfterMove)
    ∧ (safe_channel.Receiver.receive
        ({ message := some v, ready := false } : safe_channel.Channel T)
      = .error .noMessage)
    ∧ (safe_channel_without_arc.Receiver.receive
        (safe_channel_without_arc.Sender.send
          ((safe_channel_without_arc.Channel.new : safe_channel_without_arc.Channel T).split).2 v)
      = .ok (v, { message := some v, ready := false }))
    ∧ (safe_channel_without_arc.Receiver.receive
        ({ message := some v, ready := false } : safe_channel_without_arc.Channel T)
      = .error .noMessage)
    ∧ ((((ch5_6.Channel.new : ch5_6.Channel T).splitPair).2.send v).bind
        (fun p => p.receive ch5_6.Channel.new)
      = .ok (v, { chan := { message := some v, ready := false },
                  hasSender := false, hasReceiver := false }))
    ∧ (((((ch5_6.Channel.new : ch5_6.Channel T).splitPair).2.send v).bind
        (fun p => p.receive ch5_6.Channel.new)).bind
        (fun q => q.2.receive ch5_6.Channel.new) = .error .useAfterMove) := by
  exact ⟨rfl, rfl, rfl, rfl, rfl, rfl, rfl, rfl, rfl⟩

/-- C2: a second send on the same runtime-checked instance is caught by
the in_use claim and panics, with the first message still in the slot
untouched; in the ownership-typed variant a successful send leaves no
live Sender, so any further send is a call on a moved handle, which the
Rust compiler rejects. -/
theorem C2_double_send_detected (T : Type) (v w : T) (c c1 : unsafe_channel.Channel T)
    (h : c.send v = .ok c1) :
    c1.send w = .error .doubleSend ∧ c1.message = some v
    ∧ (∀ (p p1 : safe_channel.Pair T) (m : T), p.send m = .ok p1 →
        p1.hasSender = false ∧ ∀ m2 : T, p1.send m2 = .error .useAfterMove) := by
  have hc1 : c1 = { message := some v, in_use := true, ready := true } := by
    cases hb : c.in_use <;>
      simp [unsafe_channel.Channel.send, Atomics.swap, Atomics.store, hb] at h
    exact h.symm
  subst hc1
  refine ⟨rfl, rfl, ?_⟩
  intro p p1 m hp
  have hp1 : p1 = { chan := safe_channel.Sender.send p.chan m,
                    hasSender := false, hasReceiver := p.hasReceiver } := by
    cases hb : p.hasSender <;> simp [safe_channel.Pair.send, hb] at hp
    exact hp.symm
  subst hp1
  exact ⟨rfl, fun m2 => rfl⟩

/-- Witness for C2 at a concrete input: the channel state produced by a
first successful send of 1, on which a send of 2 panics. -/
theorem C2_double_send_detected_witness :
    unsafe_channel.Channel.send
      { message := some 1, in_use := true, ready := true } 2 = .error .doubleSend :=
  (C2_double_send_detected Nat 1 2 unsafe_channel.Channel.new
    { message := some 1, in_use := true, ready := true } rfl).1

/-- C3: in the non-blocking variants (runtime-checked and plain
ownership-typed), receive before any send has completed panics with the
no-message contract violation; no default or uninitialized value is
ever returned. -/
theorem C3_premature_receive_panics (T : Type) :
    ((unsafe_channel.Channel.new : unsafe_channel.Channel T).receive = .error .noMessage)
    ∧ ((safe_channel.Pair.channel : safe_channel.Pair T).receive = .error .noMessage)
    ∧ (safe_channel.Receiver.receive (safe_channel.Channel.init : safe_channel.Channel T)
      = .error .noMessage)
    ∧ (safe_channel_without_arc.Receiver.receive
        ((safe_channel_without_arc.Channel.new : safe_channel_without_arc.Channel T).split).2
      = .error .noMessage) := by
  exact ⟨rfl, rfl, rfl, rfl⟩

/-- C4: the claim says the directed-wake receive re-checks the ready
flag in a loop around park and never reads the slot without having
observed the flag true; the source wraps park in a single if and reads
the slot unconditionally after one wakeup. At the failing input, a
fresh channel whose park returns spuriously before any send, the
embedded receive performs an uninitialized read; the same call whose
park returns after a completed send of 7 returns 7, so the missing
re-check after the wakeup is exactly the divergence. -/
theorem C4_receive_reads_slot_without_recheck_after_park :
    (ch5_6.Receiver.receive (ch5_6.Channel.new : ch5_6.Channel Nat) ch5_6.Channel.new
      = .error .uninitRead)
    ∧ (ch5_6.Receiver.receive (ch5_6.Channel.new : ch5_6.Channel Nat)
        (ch5_6.Sender.send ch5_6.Channel.new 7)
      = .ok (7, ch5_6.Sender.send ch5_6.Channel.new 7)) := by
  exact ⟨rfl, rfl⟩

/-- C5: over every interleaving of the producer running send v and the
consumer running receive, from the moment the consumer's acquire swap
of the ready flag observes true the slot holds the complete sent value,
and the consumer's read returns exactly v, never a torn or
uninitialized value. -/
theorem C5_acquire_observation_yields_sent_value (T : Type) (v : T) (c : handoff.Conf T)
    (h : handoff.Reachable v c) :
    (c.cpc = .readSlot → c.slot = some v) ∧ (c.cpc = .cDone → c.res = some v) := by
  have hinv := handoff.inv_reachable h
  exact ⟨hinv.2.2.1, hinv.2.2.2⟩

/-- Witness for C5: a concrete full interleaving at v = 3, ending with
the consumer done holding 3. -/
theorem C5_acquire_observation_yields_sent_value_witness :
    (({ slot := some 3, in_use := true, ready := false,
        ppc := .pDone, cpc := .cDone, res := some 3 } : handoff.Conf Nat).res = some 3) :=
  (C5_acquire_observation_yields_sent_value Nat 3 _
    (Relation.ReflTransGen.tail
      (Relation.ReflTransGen.tail
        (Relation.ReflTransGen.tail
          (Relation.ReflTransGen.tail
            (Relation.ReflTransGen.tail Relation.ReflTransGen.refl
              (handoff.Step.claimOk none false .swapReady none))
            (handoff.Step.writeSlot none true false .swapReady none))
          (handoff.Step.storeReady (some 3) true false .swapReady none))
        (handoff.Step.swapTrue (some 3) true .pDone none))
      (handoff.Step.readSlot (some 3) true false .pDone none))).2 rfl

/-- C6: teardown runs the payload destructor exactly once when the
channel is dropped after a send and before a receive (it destroys the
very value sent), and performs no payload destruction when dropped
before any send or after the value was received; in general Drop
destroys the slot contents iff the ready flag is true at teardown, and
never more than once. -/
theorem C6_drop_destroys_iff_ready (T : Type) (v : T) :
    ((unsafe_channel.Channel.new : unsafe_channel.Channel T).dropRuns = 0
      ∧ (unsafe_channel.Channel.new : unsafe_channel.Channel T).dropDestroys = none)
    ∧ ((unsafe_channel.Channel.new.send v).map unsafe_channel.Channel.dropRuns = .ok 1
      ∧ (unsafe_channel.Channel.new.send v).map unsafe_channel.Channel.dropDestroys
        = .ok (some v))
    ∧ (((unsafe_channel.Channel.new.send v).bind unsafe_channel.Channel.receive).map
        (fun q => q.2.dropRuns) = .ok 0)
    ∧ (∀ c : unsafe_channel.Channel T, (c.dropRuns = 1 ↔ c.ready = true) ∧ c.dropRuns ≤ 1)
    ∧ ((safe_channel.Channel.init : safe_channel.Channel T).dropRuns = 0
      ∧ (safe_channel.Channel.init : safe_channel.Channel T).dropDestroys = none)
    ∧ ((safe_channel.Sender.send (safe_channel.Channel.init : safe_channel.Channel T) v).dropRuns = 1
      ∧ (safe_channel.Sender.send (safe_channel.Channel.init : safe_channel.Channel T) v).dropDestroys
        = some v)
    ∧ ((safe_channel.Receiver.receive
          (safe_channel.Sender.send (safe_channel.Channel.init : safe_channel.Channel T) v)).map
        (fun q => q.2.dropRuns) = .ok 0)
    ∧ (∀ c : safe_channel.Channel T, (c.dropRuns = 1 ↔ c.ready = true) ∧ c.dropRuns ≤ 1) := by
  refine ⟨⟨rfl, rfl⟩, ⟨rfl, rfl⟩, rfl, ?_, ⟨rfl, rfl⟩, ⟨rfl, rfl⟩, rfl, ?_⟩ <;>
    · intro c
      cases hb : c.ready <;>
        simp [unsafe_channel.Channel.dropRuns, safe_channel.Channel.dropRuns, hb]

/-- C7: on a borrowed-backing channel that has completed a round trip,
split re-initializes the internal state to exactly that of a freshly
constructed channel (the residual copy of the first value in the slot
included), so the second Sender/Receiver pair behaves identically to a
fresh one: the first value is not observable in the second round, and a
full second round trip with w returns w. -/
theorem C7_split_issues_fresh_equivalent_pair (T : Type) (v w : T) :
    (safe_channel_without_arc.Receiver.receive
        (safe_channel_without_arc.Sender.send
          ((safe_channel_without_arc.Channel.new : safe_channel_without_arc.Channel T).split).2 v)
      = .ok (v, { message := some v, ready := false }))
    ∧ ((({ message := some v, ready := false } : safe_channel_without_arc.Channel T).split).2
      = safe_channel_without_arc.Channel.new)
    ∧ (safe_channel_without_arc.Receiver.receive
        ((({ message := some v, ready := false } : safe_channel_without_arc.Channel T).split).2)
      = .error .noMessage)
    ∧ (safe_channel_without_arc.Receiver.receive
        (safe_channel_without_arc.Sender.send
          ((({ message := some v, ready := false } : safe_channel_without_arc.Channel T).split).2) w)
      = .ok (w, { message := some w, ready := false }))
    ∧ ((((ch5_6.Channel.new : ch5_6.Channel T).splitPair).2.send v).bind
        (fun p => p.receive ch5_6.Channel.new)
      = .ok (v, { chan := { message := some v, ready := false },
                  hasSender := false, hasReceiver := false }))
    ∧ ((({ message := some v, ready := false } : ch5_6.Channel T).split).2
      = ch5_6.Channel.new)
    ∧ (((({ message := some v, ready := false } : ch5_6.Channel T).splitPair).2.send w).bind
        (fun p => p.receive ch5_6.Channel.new)
      = .ok (w, { chan := { message := some w, ready := false },
                  hasSender := false, hasReceiver := false })) := by
  exact ⟨rfl, rfl, rfl, rfl, rfl, rfl, rfl⟩

/-- C8: is_ready has no side effects, returning the channel state with
every field unchanged; it returns the current value of the ready flag:
false on a fresh channel, true on one whose send has completed. -/
theorem C8_is_ready_pure_peek (T : Type) (v : T) :
    (∀ c : unsafe_channel.Channel T, (c.is_ready).2 = c ∧ (c.is_ready).1 = c.ready)
    ∧ ((unsafe_channel.Channel.new : unsafe_channel.Channel T).is_ready.1 = false)
    ∧ ((unsafe_channel.Channel.new.send v).map (fun c => (c.is_ready).1) = .ok true)
    ∧ (∀ c : safe_channel.Channel T, (safe_channel.Receiver.is_ready c).2 = c
        ∧ (safe_channel.Receiver.is_ready c).1 = c.ready)
    ∧ ((safe_channel.Receiver.is_ready (safe_channel.Channel.init : safe_channel.Channel T)).1
      = false)
    ∧ ((safe_channel.Receiver.is_ready
          (safe_channel.Sender.send (safe_channel.Channel.init : safe_channel.Channel T) v)).1
      = true) := by
  refine ⟨fun c => ⟨?_, rfl⟩, rfl, rfl, fun c => ⟨?_, rfl⟩, rfl, rfl⟩ <;> cases c <;> rfl

/-- C9: the in_use flag of the runtime-checked channel is set by the
first successful send and never cleared: receive and is_ready leave it
untouched, so every later send on the same instance panics, even after
the first message has been received. -/
theorem C9_in_use_set_forever (T : Type) (v w : T) (c c1 c2 : unsafe_channel.Channel T)
    (x : T) (h1 : c.send v = .ok c1) (h2 : c1.receive = .ok (x, c2)) :
    c1.in_use = true ∧ c2.in_use = true
    ∧ (c1.is_ready).2.in_use = c1.in_use ∧ (c2.is_ready).2.in_use = c2.in_use
    ∧ c1.send w = .error .doubleSend ∧ c2.send w = .error .doubleSend := by
  have hc1 : c1 = { message := some v, in_use := true, ready := true } := by
    cases hb : c.in_use <;>
      simp [unsafe_channel.Channel.send, Atomics.swap, Atomics.store, hb] at h1
    exact h1.symm
  subst hc1
  have hc2 : c2 = { message := some v, in_use := true, ready := false } := by
    simp [unsafe_channel.Channel.receive, Atomics.swap] at h2
    exact h2.2.symm
  subst hc2
  exact ⟨rfl, rfl, rfl, rfl, rfl, rfl⟩

/-- Witness for C9 at a concrete input: a first send of 5 and the
receive of it, after which a send of 6 still panics. -/
theorem C9_in_use_set_forever_witness :
    unsafe_channel.Channel.send
      { message := some 5, in_use := true, ready := false } 6 = .error .doubleSend :=
  (C9_in_use_set_forever Nat 5 6 unsafe_channel.Channel.new
    { message := some 5, in_use := true, ready := true }
    { message := some 5, in_use := true, ready := false } 5 rfl rfl).2.2.2.2.2

/-- C10: split on a borrowed-backing channel overwrites the state with
a fresh one and drops the replaced state: a message sent but never
received is destroyed exactly once at the moment split is next called,
a value already received is not destroyed again, and the new pair
starts with an empty slot and ready flag false. -/
theorem C10_split_drops_replaced_state (T : Type) (v : T) :
    ((safe_channel_without_arc.Sender.send
        ((safe_channel_without_arc.Channel.new : safe_channel_without_arc.Channel T).split).2 v).split
      = (some v, safe_channel_without_arc.Channel.new))
    ∧ ((safe_channel_without_arc.Sender.send
        ((safe_channel_without_arc.Channel.new : safe_channel_without_arc.Channel T).split).2 v).dropRuns
      = 1)
    ∧ ((({ message := some v, ready := false } : safe_channel_without_arc.Channel T).split).1
      = none)
    ∧ (((safe_channel_without_arc.Channel.new : safe_channel_without_arc.Channel T).split).2.message
        = none
      ∧ ((safe_channel_without_arc.Channel.new : safe_channel_without_arc.Channel T).split).2.ready
        = false)
    ∧ ((ch5_6.Sender.send (((ch5_6.Channel.new : ch5_6.Channel T).splitPair).2.chan) v).split
      = (some v, ch5_6.Channel.new))
    ∧ ((ch5_6.Sender.send (((ch5_6.Channel.new : ch5_6.Channel T).splitPair).2.chan) v).dropRuns
      = 1)
    ∧ ((({ message := some v, ready := false } : ch5_6.Channel T).split).1 = none)
    ∧ ((((ch5_6.Channel.new : ch5_6.Channel T).splitPair).2.chan.message = none)
      ∧ (((ch5_6.Channel.new : ch5_6.Channel T).splitPair).2.chan.ready = false)) := by
  exact ⟨rfl, rfl, rfl, ⟨rfl, rfl⟩, rfl, rfl, rfl, ⟨rfl, rfl⟩⟩
